import Mathlib

/-!
Verification of the distributed-banking-ops repository.

Shallow embedding of the two services' core logic:

* account-service (`app/models.py`, `app/service.py`, `app/router.py`,
  `app/publisher.py`): accounts with an exact decimal balance (modelled exactly:
  a scale-2 decimal value is an integer count of cents, so `Decimal` `+`/`-`/`<`
  are integer operations on ℤ, with no rounding),
  deposit / withdraw read-modify-commit, a best-effort event publisher whose
  failures of the kinds `ConnectionError`, `ValueError`, `RuntimeError` are
  logged and swallowed by the caller.
* transaction-service (`app/service.py`, `app/router.py`, `app/consumer.py`):
  fraud flagging at a strict threshold, the filtered / ordered / paginated
  transaction listing, and the consumer callback's ack / nack discipline.

The database session is modelled by an explicit store (a list of rows);
autoincrement primary keys and server-assigned timestamps are threaded as
explicit `next_id` / `now` arguments.  The broker interaction of
`publisher.py` is a parameter.  Two embeddings of the publish path are given:
`BankOps` restricts broker failures to the exception kinds the code's
`except (ConnectionError, ValueError, RuntimeError)` clauses catch — on that
restricted space every failure is swallowed, so the mutation layer needs no
escape path; `BankFull` re-embeds the same source functions over the full
failure space, adding pika's `AMQPError` family (e.g. `AMQPConnectionError`
from `pika.BlockingConnection`), which subclasses `Exception` but none of the
three caught classes, and therefore models the implicit propagate-uncaught
path of `publisher.py` and `service.py`: such an exception escapes deposit /
withdraw after the commit and fails the HTTP request.
-/

namespace BankOps

/-- A row of the `accounts` table (`account-service/app/models.py`). -/
structure Account where
  id : Nat
  account_number : String
  balance : ℤ
  created_at : Nat
  deriving Repr, DecidableEq

/-- The accounts table. -/
abbrev Store := List Account

/-- Wire event (`shared/events.py`, `TransactionEvent`). -/
structure TransactionEvent where
  account_id : Nat
  account_number : String
  amount : ℤ
  transaction_type : String
  timestamp : Nat
  deriving Repr, DecidableEq

/-- Exception kinds the publisher catches and re-raises
(`publisher.py`, `except (ConnectionError, ValueError, RuntimeError)`).
This deliberately narrow space omits pika's `AMQPError` family, which neither
`publisher.py` nor `service.py` catches; the full space, including the
resulting uncaught path through deposit / withdraw, is `BankFull.PubExc`
below — `BankOps` theorems quantifying over `PubErr` therefore speak only
about publish failures of the caught kinds. -/
inductive PubErr
  | connectionError
  | valueError
  | runtimeError
  deriving Repr, DecidableEq

/-- Outcome of the broker interaction inside one `publish_transaction_event`
call: either the publish goes through, or an exception of one of the kinds
listed in the publisher's `except` clause is raised by the pika calls. -/
abbrev BrokerOutcome := Except PubErr Unit

/-- `publisher.publish_transaction_event`: raises `RuntimeError` when
`RABBITMQ_QUEUE` is unset; otherwise performs the broker publish, and on
failure logs and re-raises the exception.  Returns the list of events that
reached the broker. -/
def publish_transaction_event (queueConfigured : Bool) (broker : BrokerOutcome)
    (account_id : Nat) (account_number : String) (amount : ℤ)
    (transaction_type : String) (now : Nat) :
    Except PubErr (List TransactionEvent) :=
  if queueConfigured then
    match broker with
    | .ok _ => .ok [⟨account_id, account_number, amount, transaction_type, now⟩]
    | .error e => .error e
  else
    .error .runtimeError

/-- `service.get_account`: `db.query(Account).filter(Account.id == account_id).first()`. -/
def get_account (db : Store) (account_id : Nat) : Option Account :=
  db.find? fun a => decide (a.id = account_id)

/-- `service.get_account_by_number`. -/
def get_account_by_number (db : Store) (account_number : String) : Option Account :=
  db.find? fun a => decide (a.account_number = account_number)

/-- `service.create_account`: inserts a fresh row with balance `Decimal("0.00")`. -/
def create_account (db : Store) (next_id : Nat) (account_number : String)
    (now : Nat) : Account × Store :=
  let account : Account :=
    { id := next_id, account_number := account_number, balance := 0, created_at := now }
  (account, db ++ [account])

/-- The committed effect of `account.balance = newBalance; db.commit()` on the
accounts table: the targeted row's balance is updated in place. -/
def commit_balance (db : Store) (account_id : Nat) (newBalance : ℤ) : Store :=
  db.map fun a => if a.id = account_id then { a with balance := newBalance } else a

/-- Result of `service.deposit` / `service.withdraw`: the Python function
returns `None`, raises `ValueError(msg)`, or returns the updated account. -/
inductive MutResult
  | none
  | raised (msg : String)
  | ok (a : Account)
  deriving Repr, DecidableEq

/-- Full outcome of one mutation call: the returned value, the committed
accounts table, and the events that reached the broker. -/
structure MutOutcome where
  result : MutResult
  db : Store
  published : List TransactionEvent
  deriving Repr, DecidableEq

/-- `service.deposit`: look up the account, commit `balance += amount`, then
best-effort publish — a publish failure of kind `ConnectionError`,
`ValueError` or `RuntimeError` is logged and swallowed. -/
def deposit (db : Store) (account_id : Nat) (amount : ℤ)
    (queueConfigured : Bool) (broker : BrokerOutcome) (now : Nat) : MutOutcome :=
  match get_account db account_id with
  | Option.none => ⟨.none, db, []⟩
  | some account =>
    let newBalance := account.balance + amount
    let db' := commit_balance db account_id newBalance
    let account' := { account with balance := newBalance }
    match publish_transaction_event queueConfigured broker account'.id
        account'.account_number amount "deposit" now with
    | .ok evs => ⟨.ok account', db', evs⟩
    | .error .connectionError => ⟨.ok account', db', []⟩
    | .error .valueError => ⟨.ok account', db', []⟩
    | .error .runtimeError => ⟨.ok account', db', []⟩

/-- `service.withdraw`: insufficient funds raise `ValueError("Insufficient
funds")` before any mutation; otherwise commit `balance -= amount` and
best-effort publish exactly as in `deposit`. -/
def withdraw (db : Store) (account_id : Nat) (amount : ℤ)
    (queueConfigured : Bool) (broker : BrokerOutcome) (now : Nat) : MutOutcome :=
  match get_account db account_id with
  | Option.none => ⟨.none, db, []⟩
  | some account =>
    if account.balance < amount then
      ⟨.raised "Insufficient funds", db, []⟩
    else
      let newBalance := account.balance - amount
      let db' := commit_balance db account_id newBalance
      let account' := { account with balance := newBalance }
      match publish_transaction_event queueConfigured broker account'.id
          account'.account_number amount "withdraw" now with
      | .ok evs => ⟨.ok account', db', evs⟩
      | .error .connectionError => ⟨.ok account', db', []⟩
      | .error .valueError => ⟨.ok account', db', []⟩
      | .error .runtimeError => ⟨.ok account', db', []⟩

/-- HTTP status codes the account router produces. -/
inductive HttpStatus
  | s200
  | s201
  | s400
  | s404
  deriving Repr, DecidableEq

/-- An HTTP response from the account router: status, error detail (empty on
success) and the serialized account body, if any. -/
structure HttpResponse where
  status : HttpStatus
  detail : String
  account : Option Account
  deriving Repr, DecidableEq

/-- `router.create_account` (`POST /accounts`): check existence first, 400 if
the account number is taken, else insert and return 201. -/
def router_create_account (db : Store) (next_id : Nat) (account_number : String)
    (now : Nat) : HttpResponse × Store :=
  match get_account_by_number db account_number with
  | some _ => (⟨.s400, "Account number already exists", Option.none⟩, db)
  | Option.none =>
    let (account, db') := create_account db next_id account_number now
    (⟨.s201, "", some account⟩, db')

/-- `router.deposit` (`PUT /accounts/{id}/deposit`). -/
def router_deposit (db : Store) (account_id : Nat) (amount : ℤ)
    (queueConfigured : Bool) (broker : BrokerOutcome) (now : Nat) :
    HttpResponse × Store × List TransactionEvent :=
  let o := deposit db account_id amount queueConfigured broker now
  match o.result with
  | .none => (⟨.s404, "Account not found", Option.none⟩, o.db, o.published)
  | .raised msg => (⟨.s400, msg, Option.none⟩, o.db, o.published)
  | .ok a => (⟨.s200, "", some a⟩, o.db, o.published)

/-- `router.withdraw` (`PUT /accounts/{id}/withdraw`): `ValueError` from the
service is caught and surfaced as 400 with the exception's message. -/
def router_withdraw (db : Store) (account_id : Nat) (amount : ℤ)
    (queueConfigured : Bool) (broker : BrokerOutcome) (now : Nat) :
    HttpResponse × Store × List TransactionEvent :=
  let o := withdraw db account_id amount queueConfigured broker now
  match o.result with
  | .none => (⟨.s404, "Account not found", Option.none⟩, o.db, o.published)
  | .raised msg => (⟨.s400, msg, Option.none⟩, o.db, o.published)
  | .ok a => (⟨.s200, "", some a⟩, o.db, o.published)

/-- One client-requested balance mutation with its amount. -/
inductive Op
  | deposit (amount : ℤ)
  | withdraw (amount : ℤ)
  deriving Repr, DecidableEq

/-- The amount carried by an operation. -/
def Op.amount : Op → ℤ
  | .deposit a => a
  | .withdraw a => a

/-- Run a sequence of mutations against one account; `Option.none` as soon as
one of them is not accepted (account missing or insufficient funds). -/
def runOps (db : Store) (account_id : Nat) (queueConfigured : Bool)
    (broker : BrokerOutcome) (now : Nat) : List Op → Option Store
  | [] => some db
  | op :: rest =>
    let o := match op with
      | .deposit a => deposit db account_id a queueConfigured broker now
      | .withdraw a => withdraw db account_id a queueConfigured broker now
    match o.result with
    | .ok _ => runOps o.db account_id queueConfigured broker now rest
    | _ => Option.none

end BankOps

namespace AuditOps

/-- A row of the `transactions` table (`transaction-service/app/models.py`). -/
structure Transaction where
  id : Nat
  account_id : Nat
  account_number : String
  amount : ℤ
  transaction_type : String
  processed_at : Nat
  fraud_detected : Bool
  notes : Option String
  deriving Repr, DecidableEq

/-- The transactions table. -/
abbrev TxStore := List Transaction

/-- `service.FRAUD_THRESHOLD = Decimal("10000.00")`, i.e. 1000000 cents. -/
def FRAUD_THRESHOLD : ℤ := 1000000

/-- `service.process_transaction`: flag fraud when `amount > FRAUD_THRESHOLD`
(strict), attach a note exactly then, insert exactly one row. -/
def process_transaction (db : TxStore) (next_id : Nat) (now : Nat)
    (account_id : Nat) (account_number : String) (amount : ℤ)
    (transaction_type : String) : Transaction × TxStore :=
  let fraud_detected := false
  let notes : Option String := Option.none
  let (fraud_detected, notes) :=
    if FRAUD_THRESHOLD < amount then
      (true, some (s!"Large transaction detected: {amount} {transaction_type}"))
    else
      (fraud_detected, notes)
  let transaction : Transaction :=
    { id := next_id, account_id := account_id, account_number := account_number,
      amount := amount, transaction_type := transaction_type,
      processed_at := now, fraud_detected := fraud_detected, notes := notes }
  (transaction, db ++ [transaction])

/-- The SQL ordering `ORDER BY processed_at DESC, id DESC`: `a` comes no later
than `b` when `a`'s key `(processed_at, id)` is lexicographically `≥` `b`'s. -/
def txOrder (a b : Transaction) : Prop :=
  b.processed_at < a.processed_at ∨
    (b.processed_at = a.processed_at ∧ b.id ≤ a.id)

instance : DecidableRel txOrder := by
  intro a b
  unfold txOrder
  infer_instance

instance : IsTotal Transaction txOrder :=
  ⟨by intro a b; unfold txOrder; omega⟩

instance : IsTrans Transaction txOrder :=
  ⟨by intro a b c; unfold txOrder; omega⟩

/-- `service.get_transactions`: optional account filter (`if account_id:` —
Python truthiness, so `None` and `0` both skip the filter), then
`ORDER BY processed_at DESC, id DESC`, then `OFFSET skip LIMIT limit`.
The declarative `ORDER BY` is realized by a sort along `txOrder`. -/
def get_transactions (db : TxStore) (account_id : Option Nat)
    (skip limit : Nat) : List Transaction :=
  let query : TxStore :=
    match account_id with
    | some aid =>
      if aid ≠ 0 then db.filter (fun t => decide (t.account_id = aid)) else db
    | Option.none => db
  ((query.insertionSort txOrder).drop skip).take limit

/-- A sample transaction row: id `i`, account `aid`, processed at `pat`. -/
def sampleTx (i aid pat : Nat) : Transaction :=
  ⟨i, aid, s!"ACC{aid}", 10075, "deposit", pat, false, Option.none⟩

/-- Five stored transactions for distinct accounts; rows 3 and 4 share a
`processed_at` so the `id` tie-break is exercised.  Most recent first, the
order fixed by `txOrder` is row 5, row 4, row 3, row 2, row 1. -/
def sampleStore : TxStore :=
  [sampleTx 1 1 10, sampleTx 2 2 20, sampleTx 3 3 30, sampleTx 4 4 30,
   sampleTx 5 5 40]

end AuditOps

namespace ConsumerOps

/-- The Python exception classes named in the `except` clauses of
`consumer.callback`. -/
inductive ExcClass
  | jsonDecodeErrorC
  | connectionErrorC
  | runtimeErrorC
  | valueErrorC
  deriving Repr, DecidableEq

/-- The exception kinds that can be raised inside `consumer.callback`:
`json.loads` raises `json.JSONDecodeError`; `TransactionEvent(**data)` raises
a pydantic `ValidationError`; `process_transaction` and the database session
can raise `ValueError`, `RuntimeError` or `ConnectionError`. -/
inductive Exc
  | jsonDecodeError
  | validationError
  | valueError
  | runtimeError
  | connectionError
  deriving Repr, DecidableEq

/-- Python's exception-class hierarchy restricted to the classes above:
`json.JSONDecodeError` subclasses `ValueError`, and pydantic's
`ValidationError` subclasses `ValueError`; neither subclasses
`ConnectionError` or `RuntimeError`. -/
def isInstance : Exc → ExcClass → Bool
  | .jsonDecodeError, .jsonDecodeErrorC => true
  | .jsonDecodeError, .valueErrorC => true
  | .validationError, .valueErrorC => true
  | .valueError, .valueErrorC => true
  | .runtimeError, .runtimeErrorC => true
  | .connectionError, .connectionErrorC => true
  | _, _ => false

/-- Outcome of `json.loads(body)` followed by `TransactionEvent(**message_data)`
on the delivered payload. -/
inductive ParseOutcome
  | ok (event : BankOps.TransactionEvent)
  | raises (e : Exc)
  deriving Repr, DecidableEq

/-- Outcome of the `process_transaction` call inside the callback. -/
inductive ProcessOutcome
  | ok
  | raises (e : Exc)
  deriving Repr, DecidableEq

/-- How the callback settles the delivered message. `unhandled e` means the
exception `e` escaped the callback: the message is neither acked nor nacked. -/
inductive Settlement
  | ack
  | nack (requeue : Bool)
  | unhandled (e : Exc)
  deriving Repr, DecidableEq

/-- `consumer.callback`, translated clause by clause: the inner
`except (ValueError, RuntimeError)` around `process_transaction` nacks with
requeue; the outer `except json.JSONDecodeError` nacks without requeue; the
outer `except (ConnectionError, RuntimeError)` nacks with requeue; any
exception matching none of these escapes the callback. -/
def callback (parse : ParseOutcome) (proc : ProcessOutcome) : Settlement :=
  let innerTry : Except Exc Settlement :=
    match parse with
    | .raises e => .error e
    | .ok _ =>
      match proc with
      | .ok => .ok .ack
      | .raises e =>
        if isInstance e .valueErrorC || isInstance e .runtimeErrorC then
          .ok (.nack true)
        else
          .error e
  match innerTry with
  | .ok s => s
  | .error e =>
    if isInstance e .jsonDecodeErrorC then
      .nack false
    else if isInstance e .connectionErrorC || isInstance e .runtimeErrorC then
      .nack true
    else
      .unhandled e

end ConsumerOps

namespace BankFull

open BankOps (Account Store TransactionEvent get_account commit_balance)

/-- The full space of exception kinds a publish attempt can raise:
`ConnectionError`, `ValueError`, `RuntimeError` — the classes named in the
`except` clauses of `publisher.py` and `service.py` — and pika's `AMQPError`
family (`AMQPConnectionError` from `pika.BlockingConnection`,
`AMQPChannelError`, ...), which subclasses `Exception` but none of those
three classes. -/
inductive PubExc
  | connectionError
  | valueError
  | runtimeError
  | amqpError
  deriving Repr, DecidableEq

/-- Whether the exception matches the clause
`except (ConnectionError, ValueError, RuntimeError)` used at `publisher.py:83`
and `service.py:62/113`.  pika's `AMQPError` family matches none of the
three classes, so it is not caught. -/
def caughtByClause : PubExc → Bool
  | .connectionError => true
  | .valueError => true
  | .runtimeError => true
  | .amqpError => false

/-- Whether the exception is a `ValueError`, the class caught by
`router.withdraw`'s `except ValueError`. -/
def isValueError : PubExc → Bool
  | .valueError => true
  | _ => false

/-- Outcome of the broker interaction inside one publish call, over the full
exception space. -/
abbrev BrokerOutcome := Except PubExc Unit

/-- `publisher.publish_transaction_event` over the full exception space:
`RuntimeError` when `RABBITMQ_QUEUE` is unset; otherwise a broker failure of
a caught kind is logged and re-raised, and any other exception propagates out
of the function directly — either way the caller sees the exception. -/
def publish_transaction_event (queueConfigured : Bool) (broker : BrokerOutcome)
    (account_id : Nat) (account_number : String) (amount : ℤ)
    (transaction_type : String) (now : Nat) :
    Except PubExc (List TransactionEvent) :=
  if queueConfigured then
    match broker with
    | .ok _ => .ok [⟨account_id, account_number, amount, transaction_type, now⟩]
    | .error e => .error e
  else
    .error .runtimeError

/-- Result of `service.deposit` / `service.withdraw` over the full exception
space: `uncaught e` is an exception that escaped the service function. -/
inductive MutResult
  | none
  | raised (msg : String)
  | uncaught (e : PubExc)
  | ok (a : Account)
  deriving Repr, DecidableEq

/-- Full outcome of one mutation call. -/
structure MutOutcome where
  result : MutResult
  db : Store
  published : List TransactionEvent
  deriving Repr, DecidableEq

/-- `service.deposit` over the full exception space: the commit happens first;
then `except (ConnectionError, ValueError, RuntimeError)` swallows a publish
failure of a caught kind, while any other exception escapes the function —
after the commit, which is not rolled back. -/
def deposit (db : Store) (account_id : Nat) (amount : ℤ)
    (queueConfigured : Bool) (broker : BrokerOutcome) (now : Nat) : MutOutcome :=
  match get_account db account_id with
  | Option.none => ⟨.none, db, []⟩
  | some account =>
    let newBalance := account.balance + amount
    let db' := commit_balance db account_id newBalance
    let account' := { account with balance := newBalance }
    match publish_transaction_event queueConfigured broker account'.id
        account'.account_number amount "deposit" now with
    | .ok evs => ⟨.ok account', db', evs⟩
    | .error e =>
      if caughtByClause e then ⟨.ok account', db', []⟩
      else ⟨.uncaught e, db', []⟩

/-- `service.withdraw` over the full exception space; the insufficient-funds
`ValueError` is raised before any mutation, exactly as in `BankOps`. -/
def withdraw (db : Store) (account_id : Nat) (amount : ℤ)
    (queueConfigured : Bool) (broker : BrokerOutcome) (now : Nat) : MutOutcome :=
  match get_account db account_id with
  | Option.none => ⟨.none, db, []⟩
  | some account =>
    if account.balance < amount then
      ⟨.raised "Insufficient funds", db, []⟩
    else
      let newBalance := account.balance - amount
      let db' := commit_balance db account_id newBalance
      let account' := { account with balance := newBalance }
      match publish_transaction_event queueConfigured broker account'.id
          account'.account_number amount "withdraw" now with
      | .ok evs => ⟨.ok account', db', evs⟩
      | .error e =>
        if caughtByClause e then ⟨.ok account', db', []⟩
        else ⟨.uncaught e, db', []⟩

/-- HTTP status codes over the full exception space: an exception that
escapes the route handler becomes a 500 from the framework. -/
inductive HttpStatus
  | s200
  | s400
  | s404
  | s500
  deriving Repr, DecidableEq

/-- An HTTP response from the account router, full exception space. -/
structure HttpResponse where
  status : HttpStatus
  detail : String
  account : Option Account
  deriving Repr, DecidableEq

/-- `router.deposit` over the full exception space: the route has no
`try` / `except` at all, so an exception escaping `service.deposit`
propagates and the framework answers 500. -/
def router_deposit (db : Store) (account_id : Nat) (amount : ℤ)
    (queueConfigured : Bool) (broker : BrokerOutcome) (now : Nat) :
    HttpResponse × Store × List TransactionEvent :=
  let o := deposit db account_id amount queueConfigured broker now
  match o.result with
  | .none => (⟨.s404, "Account not found", Option.none⟩, o.db, o.published)
  | .raised msg => (⟨.s400, msg, Option.none⟩, o.db, o.published)
  | .uncaught _e => (⟨.s500, "Internal Server Error", Option.none⟩, o.db, o.published)
  | .ok a => (⟨.s200, "", some a⟩, o.db, o.published)

/-- `router.withdraw` over the full exception space: `except ValueError`
catches the service's raised `ValueError` (mapped to 400 with the exception's
message; an escaped `PubExc` carries no message in this model, so that
unreachable branch uses an empty detail) and anything else becomes a 500
from the framework. -/
def router_withdraw (db : Store) (account_id : Nat) (amount : ℤ)
    (queueConfigured : Bool) (broker : BrokerOutcome) (now : Nat) :
    HttpResponse × Store × List TransactionEvent :=
  let o := withdraw db account_id amount queueConfigured broker now
  match o.result with
  | .none => (⟨.s404, "Account not found", Option.none⟩, o.db, o.published)
  | .raised msg => (⟨.s400, msg, Option.none⟩, o.db, o.published)
  | .uncaught e =>
    if isValueError e then
      (⟨.s400, "", Option.none⟩, o.db, o.published)
    else
      (⟨.s500, "Internal Server Error", Option.none⟩, o.db, o.published)
  | .ok a => (⟨.s200, "", some a⟩, o.db, o.published)

end BankFull

namespace BankOps

lemma get_account_mem {db : Store} {aid : Nat} {acc : Account}
    (h : get_account db aid = some acc) : acc ∈ db :=
  List.mem_of_find?_eq_some h

lemma get_account_id {db : Store} {aid : Nat} {acc : Account}
    (h : get_account db aid = some acc) : acc.id = aid := by
  simpa using List.find?_some h

lemma get_account_commit_balance (db : Store) (aid : Nat) (nb : ℤ) :
    get_account (commit_balance db aid nb) aid =
      (get_account db aid).map fun a => { a with balance := nb } := by
  induction db with
  | nil => rfl
  | cons a rest ih =>
    by_cases h : a.id = aid
    · simp [get_account, commit_balance, h]
    · simpa [get_account, commit_balance, h] using ih

lemma deposit_found {db : Store} {aid : Nat} {acc : Account} (amount : ℤ)
    (q : Bool) (b : BrokerOutcome) (now : Nat)
    (h : get_account db aid = some acc) :
    (deposit db aid amount q b now).result =
        .ok { acc with balance := acc.balance + amount } ∧
    (deposit db aid amount q b now).db =
        commit_balance db aid (acc.balance + amount) := by
  unfold deposit publish_transaction_event
  rw [h]
  cases q <;> rcases b with e | u <;> first | (cases e <;> simp) | simp

lemma withdraw_insufficient_eq {db : Store} {aid : Nat} {acc : Account}
    {amount : ℤ} (q : Bool) (b : BrokerOutcome) (now : Nat)
    (h : get_account db aid = some acc) (hlt : acc.balance < amount) :
    withdraw db aid amount q b now = ⟨.raised "Insufficient funds", db, []⟩ := by
  unfold withdraw
  rw [h]
  simp [hlt]

lemma withdraw_found {db : Store} {aid : Nat} {acc : Account} {amount : ℤ}
    (q : Bool) (b : BrokerOutcome) (now : Nat)
    (h : get_account db aid = some acc) (hge : ¬ acc.balance < amount) :
    (withdraw db aid amount q b now).result =
        .ok { acc with balance := acc.balance - amount } ∧
    (withdraw db aid amount q b now).db =
        commit_balance db aid (acc.balance - amount) := by
  unfold withdraw publish_transaction_event
  rw [h]
  simp only [hge, if_false]
  cases q <;> rcases b with e | u <;> first | (cases e <;> simp) | simp

lemma commit_balance_nonneg {db : Store} {aid : Nat} {nb : ℤ}
    (hdb : ∀ a ∈ db, 0 ≤ a.balance) (hnb : 0 ≤ nb) :
    ∀ a ∈ commit_balance db aid nb, 0 ≤ a.balance := by
  intro a ha
  rcases List.mem_map.mp ha with ⟨x, hx, rfl⟩
  by_cases h : x.id = aid
  · simpa [h] using hnb
  · simpa [h] using hdb x hx

lemma commit_balance_frame {db : Store} {aid : Nat} {nb : ℤ} :
    ∀ x ∈ db, x.id ≠ aid → x ∈ commit_balance db aid nb := by
  intro x hx hne
  refine List.mem_map.mpr ⟨x, hx, ?_⟩
  simp [hne]

lemma runOps_nonneg {aid : Nat} {q : Bool} {b : BrokerOutcome} {now : Nat} :
    ∀ (ops : List Op) (db db' : Store),
      (∀ a ∈ db, 0 ≤ a.balance) → (∀ op ∈ ops, 0 < op.amount) →
      runOps db aid q b now ops = some db' → ∀ a ∈ db', 0 ≤ a.balance := by
  intro ops
  induction ops with
  | nil =>
    intro db db' hdb _ hrun
    simp only [runOps, Option.some_inj] at hrun
    exact hrun ▸ hdb
  | cons op rest ih =>
    intro db db' hdb hops hrun
    have hop : 0 < op.amount := hops op (by simp)
    have hrest : ∀ o ∈ rest, 0 < o.amount := fun o ho => hops o (by simp [ho])
    cases op with
    | deposit a =>
      rcases hacc : get_account db aid with _ | acc
      · simp [runOps, deposit, hacc] at hrun
      · obtain ⟨hres, hdbeq⟩ := deposit_found a q b now hacc
        simp only [runOps, hres] at hrun
        rw [hdbeq] at hrun
        have hbal : 0 ≤ acc.balance := hdb acc (get_account_mem hacc)
        have hamt : 0 < a := by simpa [Op.amount] using hop
        exact ih _ _ (commit_balance_nonneg hdb (by linarith)) hrest hrun
    | withdraw a =>
      rcases hacc : get_account db aid with _ | acc
      · simp [runOps, withdraw, hacc] at hrun
      · by_cases hlt : acc.balance < a
        · have heq := withdraw_insufficient_eq q b now hacc hlt
          simp [runOps, heq] at hrun
        · obtain ⟨hres, hdbeq⟩ := withdraw_found q b now hacc hlt
          simp only [runOps, hres] at hrun
          rw [hdbeq] at hrun
          have hge : a ≤ acc.balance := le_of_not_lt hlt
          exact ih _ _ (commit_balance_nonneg hdb (by linarith)) hrest hrun

end BankOps

namespace AuditOps

lemma get_transactions_sorted (db : TxStore) (account_id : Option Nat)
    (skip limit : Nat) :
    List.Pairwise txOrder (get_transactions db account_id skip limit) := by
  unfold get_transactions
  exact List.Pairwise.sublist
    ((List.take_sublist _ _).trans (List.drop_sublist _ _))
    (List.sorted_insertionSort txOrder _)

lemma length_get_transactions_le (db : TxStore) (account_id : Option Nat)
    (skip limit : Nat) :
    (get_transactions db account_id skip limit).length ≤ limit := by
  unfold get_transactions
  simp

lemma mem_get_transactions {db : TxStore} {account_id : Option Nat}
    {skip limit : Nat} {t : Transaction}
    (ht : t ∈ get_transactions db account_id skip limit) :
    t ∈ db ∧ ∀ a, account_id = some a → a ≠ 0 → t.account_id = a := by
  unfold get_transactions at ht
  have hq :
      t ∈ (match account_id with
        | some aid =>
          if aid ≠ 0 then db.filter (fun x : Transaction => decide (x.account_id = aid)) else db
        | Option.none => db) :=
    ((List.perm_insertionSort txOrder _).mem_iff).mp
      (List.mem_of_mem_drop (List.mem_of_mem_take ht))
  cases account_id with
  | none => exact ⟨hq, by simp⟩
  | some aid =>
    by_cases h0 : aid = 0
    · subst h0
      simp only [ne_eq, not_true_eq_false, if_false] at hq
      exact ⟨hq, by simp⟩
    · simp only [ne_eq, h0, not_false_eq_true, if_true] at hq
      obtain ⟨hmem, hacc⟩ := List.mem_filter.mp hq
      refine ⟨hmem, ?_⟩
      intro a ha _
      cases ha
      simpa using hacc

end AuditOps

namespace BankOps

/-- Claim C1: starting from creation with balance 0.00, after any sequence of
accepted deposit and withdraw operations with positive amounts, the account's
balance — and every balance in the committed store — is never negative. -/
theorem balance_never_negative
    (db : Store) (next_id : Nat) (account_number : String) (now : Nat)
    (ops : List Op) (aid : Nat) (q : Bool) (b : BrokerOutcome) (db' : Store)
    (hdb : ∀ a ∈ db, 0 ≤ a.balance)
    (hpos : ∀ op ∈ ops, 0 < op.amount)
    (hrun : runOps (create_account db next_id account_number now).2 aid q b now
        ops = some db') :
    ∀ a ∈ db', 0 ≤ a.balance := by
  apply runOps_nonneg ops _ db' _ hpos hrun
  intro a ha
  simp only [create_account] at ha
  rcases List.mem_append.mp ha with h | h
  · exact hdb a h
  · simp only [List.mem_singleton] at h
    subst h
    exact le_refl 0

/-- Closed instance of C1: create, deposit 5 cents, withdraw 3 cents. -/
theorem balance_never_negative_witness :
    (0 : ℤ) ≤ (Account.mk 1 "A1" 2 0).balance :=
  balance_never_negative [] 1 "A1" 0 [.deposit 5, .withdraw 3] 1 true
    (.ok ()) [⟨1, "A1", 2, 0⟩] (by simp) (by decide) (by decide)
    (Account.mk 1 "A1" 2 0) (by decide)

/-- Claim C2: withdrawing more than the current balance returns HTTP 400 with
detail "Insufficient funds", leaves the whole accounts table unchanged (hence
every field of every account), and publishes no event. -/
theorem withdraw_insufficient_funds_rejected
    (db : Store) (aid : Nat) (amount : ℤ) (q : Bool) (b : BrokerOutcome)
    (now : Nat) (acc : Account)
    (hacc : get_account db aid = some acc)
    (hlt : acc.balance < amount) :
    router_withdraw db aid amount q b now =
      (⟨.s400, "Insufficient funds", Option.none⟩, db, []) := by
  have heq := withdraw_insufficient_eq q b now hacc hlt
  simp [router_withdraw, heq]

/-- Closed instance of C2: balance 50 cents, withdrawal of 100 cents. -/
theorem withdraw_insufficient_funds_rejected_witness :
    router_withdraw [⟨1, "A1", 50, 0⟩] 1 100 true (Except.ok ()) 0 =
      (⟨.s400, "Insufficient funds", Option.none⟩, [⟨1, "A1", 50, 0⟩], []) :=
  withdraw_insufficient_funds_rejected _ 1 100 true (.ok ()) 0
    ⟨1, "A1", 50, 0⟩ (by decide) (by decide)

end BankOps

namespace BankOps

/-- Claim C7: a successful deposit of a positive amount immediately followed
by a withdraw of exactly that amount returns the account with its original
balance, and the committed store again holds the original account row — in
particular a freshly created account ends at exactly 0.00. -/
theorem deposit_withdraw_roundtrip
    (db : Store) (aid : Nat) (a : ℤ) (q : Bool) (b : BrokerOutcome) (now : Nat)
    (acc : Account)
    (hacc : get_account db aid = some acc) (hnn : 0 ≤ acc.balance)
    (_hpos : 0 < a) :
    (withdraw (deposit db aid a q b now).db aid a q b now).result = .ok acc ∧
    get_account (withdraw (deposit db aid a q b now).db aid a q b now).db aid =
      some acc := by
  obtain ⟨i, n, bal, c⟩ := acc
  obtain ⟨hres1, hdb1⟩ := deposit_found a q b now hacc
  rw [hdb1]
  have hacc2 : get_account (commit_balance db aid (bal + a)) aid =
      some ⟨i, n, bal + a, c⟩ := by
    rw [get_account_commit_balance, hacc]
    rfl
  have hge : ¬ (Account.mk i n (bal + a) c).balance < a := by
    simp only [not_lt]
    linarith
  obtain ⟨hres2, hdb2⟩ := withdraw_found q b now hacc2 hge
  constructor
  · rw [hres2]
    simp
  · rw [hdb2, get_account_commit_balance, hacc2]
    simp

/-- Closed instance of C7: fresh account, deposit then withdraw 500 cents. -/
theorem deposit_withdraw_roundtrip_witness :
    (withdraw (deposit (create_account [] 1 "A1" 0).2 1 500 true (.ok ()) 0).db
        1 500 true (.ok ()) 0).result = .ok ⟨1, "A1", 0, 0⟩ :=
  (deposit_withdraw_roundtrip (create_account [] 1 "A1" 0).2 1 500 true
    (.ok ()) 0 ⟨1, "A1", 0, 0⟩ (by decide) (by decide) (by decide)).1

/-- Claim C8: whenever the store already holds an account with the requested
account number, creation fails with HTTP 400 "Account number already exists"
and the store is unchanged (no second account inserted); this holds for every
store state, hence after any order of prior sequential calls. -/
theorem create_duplicate_account_rejected
    (db : Store) (next_id : Nat) (account_number : String) (now : Nat)
    (h : ∃ a ∈ db, a.account_number = account_number) :
    router_create_account db next_id account_number now =
      (⟨.s400, "Account number already exists", Option.none⟩, db) := by
  obtain ⟨a, ha, hnum⟩ := h
  have hsome : (get_account_by_number db account_number).isSome :=
    List.find?_isSome.mpr ⟨a, ha, by simp [hnum]⟩
  rcases hfind : get_account_by_number db account_number with _ | x
  · rw [hfind] at hsome
    simp at hsome
  · simp [router_create_account, hfind]

/-- Closed instance of C8: account number "A1" is already taken. -/
theorem create_duplicate_account_rejected_witness :
    router_create_account [⟨1, "A1", 0, 0⟩] 2 "A1" 5 =
      (⟨.s400, "Account number already exists", Option.none⟩, [⟨1, "A1", 0, 0⟩]) :=
  create_duplicate_account_rejected _ 2 "A1" 5 ⟨⟨1, "A1", 0, 0⟩, by decide, rfl⟩

/-- Claim C9: a successful deposit returns the account with balance old + amount
and a successful withdraw with balance old - amount, with id, account number
and creation time unchanged; every account with a different id keeps its row,
and the store keeps its size. -/
theorem mutation_frame
    (db : Store) (aid : Nat) (amount : ℤ) (q : Bool) (b : BrokerOutcome)
    (now : Nat) (acc : Account)
    (hacc : get_account db aid = some acc) (_hpos : 0 < amount) :
    ((deposit db aid amount q b now).result =
        .ok { acc with balance := acc.balance + amount } ∧
      (∀ x ∈ db, x.id ≠ aid → x ∈ (deposit db aid amount q b now).db) ∧
      (deposit db aid amount q b now).db.length = db.length) ∧
    (¬ acc.balance < amount →
      (withdraw db aid amount q b now).result =
          .ok { acc with balance := acc.balance - amount } ∧
        (∀ x ∈ db, x.id ≠ aid → x ∈ (withdraw db aid amount q b now).db) ∧
        (withdraw db aid amount q b now).db.length = db.length) := by
  obtain ⟨hres, hdb⟩ := deposit_found amount q b now hacc
  refine ⟨⟨hres, ?_, ?_⟩, ?_⟩
  · rw [hdb]
    exact commit_balance_frame
  · rw [hdb]
    simp [commit_balance]
  · intro hge
    obtain ⟨hres2, hdb2⟩ := withdraw_found q b now hacc hge
    refine ⟨hres2, ?_, ?_⟩
    · rw [hdb2]
      exact commit_balance_frame
    · rw [hdb2]
      simp [commit_balance]

/-- Closed instance of C9: withdraw 40 cents from a 100-cent account. -/
theorem mutation_frame_witness :
    (withdraw [⟨1, "A1", 100, 0⟩] 1 40 true (.ok ()) 0).result =
      .ok ⟨1, "A1", 60, 0⟩ :=
  ((mutation_frame [⟨1, "A1", 100, 0⟩] 1 40 true (.ok ()) 0 ⟨1, "A1", 100, 0⟩
    (by decide) (by decide)).2 (by decide)).1

end BankOps

namespace AuditOps

/-- Claim C3: `process_transaction` sets `fraud_detected` exactly when the
amount strictly exceeds the 10000.00 threshold (so exactly 10000.00 is not
flagged), and the stored note is non-null exactly when fraud is flagged. -/
theorem fraud_flag_strict_threshold
    (db : TxStore) (next_id now account_id : Nat) (account_number : String)
    (amount : ℤ) (transaction_type : String) :
    ((process_transaction db next_id now account_id account_number amount
        transaction_type).1.fraud_detected = decide (FRAUD_THRESHOLD < amount)) ∧
    ((process_transaction db next_id now account_id account_number amount
        transaction_type).1.notes ≠ Option.none ↔ FRAUD_THRESHOLD < amount) ∧
    (process_transaction [] 1 0 1 "ACC1" FRAUD_THRESHOLD
        "deposit").1.fraud_detected = false := by
  refine ⟨?_, ?_, by decide⟩ <;>
    · unfold process_transaction
      by_cases h : FRAUD_THRESHOLD < amount <;> simp [h]

/-- Claim C6: under the documented query bounds (`limit ∈ [1, 1000]`, any
`skip`, filter absent or a positive account id), the returned rows are sorted
by `(processed_at desc, id desc)` with the id as tie-break, at most `limit`
rows are returned, every returned row is a stored row matching the filter;
and over the five stored sample transactions, `skip = 2, limit = 2` returns
exactly the 3rd and 4th most recent rows in that order. -/
theorem list_transactions_ordered_paginated
    (db : TxStore) (account_id : Option Nat) (skip limit : Nat)
    (_hlim1 : 1 ≤ limit) (_hlim2 : limit ≤ 1000)
    (haid : ∀ a, account_id = some a → 0 < a) :
    (List.Pairwise txOrder (get_transactions db account_id skip limit) ∧
      (get_transactions db account_id skip limit).length ≤ limit ∧
      ∀ t ∈ get_transactions db account_id skip limit,
        t ∈ db ∧ ∀ a, account_id = some a → t.account_id = a) ∧
    get_transactions sampleStore Option.none 2 2 =
      [sampleTx 3 3 30, sampleTx 2 2 20] := by
  refine ⟨⟨get_transactions_sorted db account_id skip limit,
    length_get_transactions_le db account_id skip limit, ?_⟩, by decide⟩
  intro t ht
  obtain ⟨hmem, hfil⟩ := mem_get_transactions ht
  refine ⟨hmem, ?_⟩
  intro a ha
  exact hfil a ha (Nat.pos_iff_ne_zero.mp (haid a ha))

/-- Closed instance of C6: the sample pagination query, limit bounds met. -/
theorem list_transactions_ordered_paginated_witness :
    get_transactions sampleStore Option.none 2 2 =
      [sampleTx 3 3 30, sampleTx 2 2 20] :=
  (list_transactions_ordered_paginated sampleStore Option.none 2 2 (by decide)
    (by decide) (by simp)).2

/-- Claim C10: `get_transactions` with `account_id = 0` ignores the filter
entirely (Python truthiness of `if account_id:`), returning the same rows as
an absent filter, while any positive account id restricts the result to that
account's transactions. -/
theorem account_id_zero_ignores_filter
    (db : TxStore) (skip limit : Nat) :
    get_transactions db (some 0) skip limit =
      get_transactions db Option.none skip limit ∧
    ∀ aid, 0 < aid →
      ∀ t ∈ get_transactions db (some aid) skip limit, t.account_id = aid := by
  constructor
  · rfl
  · intro aid haid t ht
    exact (mem_get_transactions ht).2 aid rfl (Nat.pos_iff_ne_zero.mp haid)

/-- Closed instance of C10: filtering the sample store by account 3. -/
theorem account_id_zero_ignores_filter_witness :
    (sampleTx 3 3 30).account_id = 3 :=
  (account_id_zero_ignores_filter sampleStore 0 10).2 3 (by decide)
    (sampleTx 3 3 30) (by decide)

end AuditOps

namespace ConsumerOps

/-- Claim C4 (failing case): a delivered payload that is valid JSON but not a
valid `TransactionEvent` raises a pydantic `ValidationError`, which matches
neither `except json.JSONDecodeError` nor `except (ConnectionError,
RuntimeError)` — the exception escapes `callback` and the message is neither
acked nor nacked, contradicting the claimed nack(requeue=false). -/
theorem callback_validation_error_unsettled :
    callback (.raises .validationError) .ok = .unhandled .validationError :=
  rfl

end ConsumerOps

namespace BankFull

open BankOps (Account Store TransactionEvent get_account commit_balance)

lemma deposit_caught_eq {db : Store} {aid : Nat} {acc : Account} (amount : ℤ)
    (q : Bool) {k : PubExc} (now : Nat)
    (h : get_account db aid = some acc) (hk : caughtByClause k = true) :
    deposit db aid amount q (.error k) now =
      ⟨.ok { acc with balance := acc.balance + amount },
        commit_balance db aid (acc.balance + amount), []⟩ := by
  unfold deposit publish_transaction_event
  rw [h]
  cases q
  · simp [caughtByClause]
  · simp [hk]

lemma deposit_uncaught_eq {db : Store} {aid : Nat} {acc : Account} (amount : ℤ)
    {k : PubExc} (now : Nat)
    (h : get_account db aid = some acc) (hk : caughtByClause k = false) :
    deposit db aid amount true (.error k) now =
      ⟨.uncaught k, commit_balance db aid (acc.balance + amount), []⟩ := by
  unfold deposit publish_transaction_event
  rw [h]
  simp [hk]

lemma withdraw_caught_eq {db : Store} {aid : Nat} {acc : Account} {amount : ℤ}
    (q : Bool) {k : PubExc} (now : Nat)
    (h : get_account db aid = some acc) (hge : ¬ acc.balance < amount)
    (hk : caughtByClause k = true) :
    withdraw db aid amount q (.error k) now =
      ⟨.ok { acc with balance := acc.balance - amount },
        commit_balance db aid (acc.balance - amount), []⟩ := by
  unfold withdraw publish_transaction_event
  rw [h]
  simp only [hge, if_false]
  cases q
  · simp [caughtByClause]
  · simp [hk]

lemma withdraw_uncaught_eq {db : Store} {aid : Nat} {acc : Account} {amount : ℤ}
    {k : PubExc} (now : Nat)
    (h : get_account db aid = some acc) (hge : ¬ acc.balance < amount)
    (hk : caughtByClause k = false) :
    withdraw db aid amount true (.error k) now =
      ⟨.uncaught k, commit_balance db aid (acc.balance - amount), []⟩ := by
  unfold withdraw publish_transaction_event
  rw [h]
  simp only [hge, if_false]
  simp [hk]

/-- Claim C5 (counterexample): with the account committed at 100 + 50 cents,
a publish failure from pika's `AMQPError` family — e.g. `AMQPConnectionError`
raised by `pika.BlockingConnection` when the broker is down — matches neither
`except` clause: deposit does not return the updated account (the exception
escapes), the HTTP caller sees 500 instead of success, yet the balance
commit has already happened and is not rolled back. -/
theorem publish_failure_claim_counterexample :
    (deposit [⟨1, "A1", 100, 0⟩] 1 50 true (.error .amqpError) 0).result =
        .uncaught .amqpError ∧
    (router_deposit [⟨1, "A1", 100, 0⟩] 1 50 true (.error .amqpError) 0).1.status =
        .s500 ∧
    (deposit [⟨1, "A1", 100, 0⟩] 1 50 true (.error .amqpError) 0).db =
        [⟨1, "A1", 150, 0⟩] := by
  decide

/-- Claim C5 (amended): when the balance mutation commits but the event
publish fails with one of the exception kinds the code catches
(`ConnectionError`, `ValueError`, `RuntimeError`), deposit and withdraw still
return the updated account, the committed change is kept, no event reaches
the broker, and the HTTP caller sees 200; when the publish fails with any
other kind (pika's `AMQPError` family), the committed change is equally kept
— not rolled back — but the exception escapes after the commit and the HTTP
caller sees 500 instead of success. -/
theorem publish_failure_handling_amended
    (db : Store) (aid : Nat) (amount : ℤ) (q : Bool) (k : PubExc) (now : Nat)
    (acc : Account)
    (hacc : get_account db aid = some acc) (_hpos : 0 < amount) :
    (caughtByClause k = true →
      (deposit db aid amount q (.error k) now).result =
          .ok { acc with balance := acc.balance + amount } ∧
        (deposit db aid amount q (.error k) now).db =
          commit_balance db aid (acc.balance + amount) ∧
        (deposit db aid amount q (.error k) now).published = [] ∧
        (router_deposit db aid amount q (.error k) now).1.status = .s200 ∧
        (¬ acc.balance < amount →
          (withdraw db aid amount q (.error k) now).result =
              .ok { acc with balance := acc.balance - amount } ∧
            (withdraw db aid amount q (.error k) now).db =
              commit_balance db aid (acc.balance - amount) ∧
            (withdraw db aid amount q (.error k) now).published = [] ∧
            (router_withdraw db aid amount q (.error k) now).1.status = .s200)) ∧
    (caughtByClause k = false →
      (deposit db aid amount true (.error k) now).result = .uncaught k ∧
        (deposit db aid amount true (.error k) now).db =
          commit_balance db aid (acc.balance + amount) ∧
        (deposit db aid amount true (.error k) now).published = [] ∧
        (router_deposit db aid amount true (.error k) now).1.status = .s500 ∧
        (¬ acc.balance < amount →
          (withdraw db aid amount true (.error k) now).result = .uncaught k ∧
            (withdraw db aid amount true (.error k) now).db =
              commit_balance db aid (acc.balance - amount) ∧
            (router_withdraw db aid amount true (.error k) now).1.status =
              .s500)) := by
  refine ⟨fun hk => ?_, fun hk => ?_⟩
  · have hd := deposit_caught_eq amount q now hacc hk
    refine ⟨by simp [hd], by simp [hd], by simp [hd],
      by simp [router_deposit, hd], fun hge => ?_⟩
    have hw := withdraw_caught_eq q now hacc hge hk
    exact ⟨by simp [hw], by simp [hw], by simp [hw],
      by simp [router_withdraw, hw]⟩
  · have hd := deposit_uncaught_eq amount now hacc hk
    have hnv : isValueError k = false := by
      cases k <;> simp_all [caughtByClause, isValueError]
    refine ⟨by simp [hd], by simp [hd], by simp [hd],
      by simp [router_deposit, hd], fun hge => ?_⟩
    have hw := withdraw_uncaught_eq now hacc hge hk
    exact ⟨by simp [hw], by simp [hw],
      by simp [router_withdraw, hw, hnv]⟩

/-- Closed instance of the amended C5: a caught broker connection failure
during a deposit still yields the updated account. -/
theorem publish_failure_handling_amended_witness :
    (deposit [⟨1, "A1", 100, 0⟩] 1 50 true (.error .connectionError) 0).result =
      .ok ⟨1, "A1", 150, 0⟩ :=
  ((publish_failure_handling_amended [⟨1, "A1", 100, 0⟩] 1 50 true
    .connectionError 0 ⟨1, "A1", 100, 0⟩ (by decide) (by decide)).1
    (by decide)).1

end BankFull
